import Mathlib

/-!
# Verification of the `DeviceManagerClient` (Cloud IoT Core Node.js client)

A shallow embedding, in Lean 4, of the externally observable behaviour of
`src/v1/device_manager_client.js`:

* the resource path templates and their render/match codec;
* the per-method request/options plumbing (routing headers, request
  forwarding, synchronous failures on missing required sub-objects);
* the pagination iterator (manual page mode and auto-draining mode);
* the retry policy resolved from the static default configuration table.

JavaScript conventions are modelled as follows: strings are Lean `String`s,
objects are Lean structures with `Option` fields (`none` standing for an
absent/`undefined` property), a synchronously thrown `TypeError` is
`Except.error JsError.typeError`, and in-place mutation of the caller's
`options` object is modelled by returning the updated options value.
-/

namespace IotClient

/-! ## Path template codec

The template strings below are copied verbatim from the `_pathTemplates`
table of `device_manager_client.js`.  The render/match algorithm itself is
implemented by `PathTemplate` in the `google-gax` dependency, which is not
part of this repository; it is modelled here from the spec (§4.1): a
template is a slash-separated list of segments, a segment written
`{name}` binds a variable, rendering substitutes the bound values joined
by `/`, and matching splits the input on `/`, requires the same number of
segments with equal literals, and fails otherwise. -/

/-- A single segment of a path template: either a literal or a named
variable. -/
inductive Seg where
  | lit (s : String)
  | var (s : String)
deriving DecidableEq, Repr

/-- Split a character list at `'/'`, mirroring JavaScript
`string.split('/')`: `"a/b"` gives `["a", "b"]`, the empty string gives
`[""]`, and adjacent separators produce empty groups. -/
def splitCh : List Char → List (List Char)
  | [] => [[]]
  | c :: cs =>
    if c = '/' then [] :: splitCh cs
    else
      match splitCh cs with
      | [] => [[c]]
      | g :: gs => (c :: g) :: gs

/-- Split a string into its `/`-separated segments. -/
def splitSlash (s : String) : List String :=
  (splitCh s.data).map (fun cs => String.mk cs)

/-- Modelled from the spec: the `PathTemplate` constructor of google-gax
(not part of this repository) classifies one template segment, treating a
segment of the form `{name}` as a variable binding position. -/
def parseSeg (s : String) : Seg :=
  match s.data with
  | '\x7b' :: rest =>
    if rest.getLast? = some '\x7d' then Seg.var (String.mk rest.dropLast)
    else Seg.lit s
  | _ => Seg.lit s

/-- Modelled from the spec: parse a template string into its segments. -/
def parseTemplate (s : String) : List Seg :=
  (splitSlash s).map parseSeg

/-- The device path template, from `_pathTemplates.devicePathTemplate`. -/
def devicePathTemplate : List Seg :=
  parseTemplate
    "projects/{project}/locations/{location}/registries/{registry}/devices/{device}"

/-- The registry path template, from
`_pathTemplates.deviceRegistryPathTemplate`. -/
def deviceRegistryPathTemplate : List Seg :=
  parseTemplate "projects/{project}/locations/{location}/registries/{registry}"

/-- The location path template, from `_pathTemplates.locationPathTemplate`. -/
def locationPathTemplate : List Seg :=
  parseTemplate "projects/{project}/locations/{location}"

/-- The value a segment contributes to a rendered path, given a binding
function for variables. -/
def segVal (b : String → String) : Seg → String
  | Seg.lit s => s
  | Seg.var n => b n

/-- Modelled from the spec: `PathTemplate.render` joins the segment values
with `/`. -/
def renderSegs (b : String → String) : List Seg → String
  | [] => ""
  | [seg] => segVal b seg
  | seg :: rest => segVal b seg ++ "/" ++ renderSegs b rest

/-- The bindings object passed by `devicePath`. -/
def deviceBindings (project location registry device : String) :
    String → String := fun n =>
  if n = "project" then project
  else if n = "location" then location
  else if n = "registry" then registry
  else if n = "device" then device
  else ""

/-- `devicePath(project, location, registry, device)`. -/
def devicePath (project location registry device : String) : String :=
  renderSegs (deviceBindings project location registry device) devicePathTemplate

/-- The bindings object passed by `deviceRegistryPath`. -/
def registryBindings (project location registry : String) :
    String → String := fun n =>
  if n = "project" then project
  else if n = "location" then location
  else if n = "registry" then registry
  else ""

/-- `deviceRegistryPath(project, location, registry)`. -/
def deviceRegistryPath (project location registry : String) : String :=
  renderSegs (registryBindings project location registry)
    deviceRegistryPathTemplate

/-- The bindings object passed by `locationPath`. -/
def locationBindings (project location : String) : String → String := fun n =>
  if n = "project" then project
  else if n = "location" then location
  else ""

/-- `locationPath(project, location)`. -/
def locationPath (project location : String) : String :=
  renderSegs (locationBindings project location) locationPathTemplate

/-- Modelled from the spec: `PathTemplate.match` against a segment list.
Literals must be equal, variables bind the corresponding segment, and any
length mismatch fails.  `none` models the parse error thrown by gax. -/
def matchSegs : List Seg → List String → Option (List (String × String))
  | [], [] => some []
  | Seg.lit a :: ts, x :: xs => if x = a then matchSegs ts xs else none
  | Seg.var n :: ts, x :: xs => (matchSegs ts xs).map (fun m => (n, x) :: m)
  | _, _ => none

/-- Modelled from the spec: `PathTemplate.match` on a path string. -/
def matchPath (t : List Seg) (s : String) : Option (List (String × String)) :=
  matchSegs t (splitSlash s)

/-- `matchProjectFromDeviceName`: match the device template and read the
`project` binding.  `none` models the error thrown on a non-matching path. -/
def matchProjectFromDeviceName (deviceName : String) : Option String :=
  (matchPath devicePathTemplate deviceName).bind (fun m => m.lookup "project")

/-- `matchLocationFromDeviceName`. -/
def matchLocationFromDeviceName (deviceName : String) : Option String :=
  (matchPath devicePathTemplate deviceName).bind (fun m => m.lookup "location")

/-- `matchRegistryFromDeviceName`. -/
def matchRegistryFromDeviceName (deviceName : String) : Option String :=
  (matchPath devicePathTemplate deviceName).bind (fun m => m.lookup "registry")

/-- `matchDeviceFromDeviceName`. -/
def matchDeviceFromDeviceName (deviceName : String) : Option String :=
  (matchPath devicePathTemplate deviceName).bind (fun m => m.lookup "device")

/-- `matchProjectFromDeviceRegistryName`. -/
def matchProjectFromDeviceRegistryName (deviceRegistryName : String) :
    Option String :=
  (matchPath deviceRegistryPathTemplate deviceRegistryName).bind
    (fun m => m.lookup "project")

/-- `matchLocationFromDeviceRegistryName`. -/
def matchLocationFromDeviceRegistryName (deviceRegistryName : String) :
    Option String :=
  (matchPath deviceRegistryPathTemplate deviceRegistryName).bind
    (fun m => m.lookup "location")

/-- `matchRegistryFromDeviceRegistryName`. -/
def matchRegistryFromDeviceRegistryName (deviceRegistryName : String) :
    Option String :=
  (matchPath deviceRegistryPathTemplate deviceRegistryName).bind
    (fun m => m.lookup "registry")

/-- `matchProjectFromLocationName`. -/
def matchProjectFromLocationName (locationName : String) : Option String :=
  (matchPath locationPathTemplate locationName).bind
    (fun m => m.lookup "project")

/-- `matchLocationFromLocationName`. -/
def matchLocationFromLocationName (locationName : String) : Option String :=
  (matchPath locationPathTemplate locationName).bind
    (fun m => m.lookup "location")

/-- The conformity predicate of the spec: a path conforms to a template
when it has exactly one segment per template position and every literal
position carries exactly the template's literal.  (Stated independently of
`matchSegs`, following the spec's wording about missing, extra, or
wrong-literal segments.) -/
def segsOk : List Seg → List String → Bool
  | [], [] => true
  | Seg.lit a :: ts, x :: xs => (x == a) && segsOk ts xs
  | Seg.var _ :: ts, _ :: xs => segsOk ts xs
  | _, _ => false

/-- A path string conforms to a template. -/
def conformsTo (t : List Seg) (s : String) : Bool :=
  segsOk t (splitSlash s)

/-! ### Splitting lemmas -/

theorem data_append (s t : String) : (s ++ t).data = s.data ++ t.data := rfl

theorem slash_data_cons (x : List Char) : "/".data ++ x = '/' :: x := rfl

theorem splitCh_of_no_slash {cs : List Char} (h : '/' ∉ cs) :
    splitCh cs = [cs] := by
  induction cs with
  | nil => rfl
  | cons c cs ih =>
    have hc : ¬c = '/' := fun hc => h (hc ▸ List.mem_cons_self c cs)
    have hcs : '/' ∉ cs := fun hm => h (List.mem_cons_of_mem c hm)
    simp [splitCh, hc, ih hcs]

theorem splitCh_append {xs : List Char} (ys : List Char) (h : '/' ∉ xs) :
    splitCh (xs ++ '/' :: ys) = xs :: splitCh ys := by
  induction xs with
  | nil => simp [splitCh]
  | cons x xs ih =>
    have hx : ¬x = '/' := fun hx => h (hx ▸ List.mem_cons_self x xs)
    have hxs : '/' ∉ xs := fun hm => h (List.mem_cons_of_mem x hm)
    simp [splitCh, hx, ih hxs]

theorem splitSlash_devicePath (p l r d : String)
    (hp : '/' ∉ p.data) (hl : '/' ∉ l.data)
    (hr : '/' ∉ r.data) (hd : '/' ∉ d.data) :
    splitSlash (devicePath p l r d) =
      ["projects", p, "locations", l, "registries", r, "devices", d] := by
  have h0 : devicePath p l r d =
      "projects" ++ "/" ++ (p ++ "/" ++ ("locations" ++ "/" ++ (l ++ "/" ++
        ("registries" ++ "/" ++ (r ++ "/" ++ ("devices" ++ "/" ++ d)))))) := rfl
  unfold splitSlash
  rw [h0]
  simp only [data_append, List.append_assoc, List.singleton_append]
  rw [splitCh_append _ (by decide), splitCh_append _ hp,
    splitCh_append _ (by decide), splitCh_append _ hl,
    splitCh_append _ (by decide), splitCh_append _ hr,
    splitCh_append _ (by decide), splitCh_of_no_slash hd]
  rfl

theorem splitSlash_deviceRegistryPath (p l r : String)
    (hp : '/' ∉ p.data) (hl : '/' ∉ l.data) (hr : '/' ∉ r.data) :
    splitSlash (deviceRegistryPath p l r) =
      ["projects", p, "locations", l, "registries", r] := by
  have h0 : deviceRegistryPath p l r =
      "projects" ++ "/" ++ (p ++ "/" ++ ("locations" ++ "/" ++ (l ++ "/" ++
        ("registries" ++ "/" ++ r)))) := rfl
  unfold splitSlash
  rw [h0]
  simp only [data_append, List.append_assoc, List.singleton_append]
  rw [splitCh_append _ (by decide), splitCh_append _ hp,
    splitCh_append _ (by decide), splitCh_append _ hl,
    splitCh_append _ (by decide), splitCh_of_no_slash hr]
  rfl

theorem splitSlash_locationPath (p l : String)
    (hp : '/' ∉ p.data) (hl : '/' ∉ l.data) :
    splitSlash (locationPath p l) = ["projects", p, "locations", l] := by
  have h0 : locationPath p l =
      "projects" ++ "/" ++ (p ++ "/" ++ ("locations" ++ "/" ++ l)) := rfl
  unfold splitSlash
  rw [h0]
  simp only [data_append, List.append_assoc, List.singleton_append]
  rw [splitCh_append _ (by decide), splitCh_append _ hp,
    splitCh_append _ (by decide), splitCh_of_no_slash hl]
  rfl

theorem matchSegs_none_of_not_ok :
    ∀ (t : List Seg) (xs : List String),
      segsOk t xs = false → matchSegs t xs = none := by
  intro t
  induction t with
  | nil =>
    intro xs
    cases xs <;> simp [segsOk, matchSegs]
  | cons seg ts ih =>
    intro xs
    cases xs with
    | nil => cases seg <;> simp [segsOk, matchSegs]
    | cons x xs =>
      cases seg with
      | lit a =>
        by_cases hxa : x = a
        · subst hxa
          simp only [segsOk, beq_self_eq_true, Bool.true_and, matchSegs,
            if_pos rfl]
          exact ih xs
        · intro _
          simp [matchSegs, hxa]
      | var n =>
        simp only [segsOk, matchSegs]
        intro h
        rw [ih xs h]
        rfl

/-! ## Theorems: path templates -/

/-- C8: the three path templates are exactly
`projects/{project}/locations/{location}/registries/{registry}/devices/{device}`,
`projects/{project}/locations/{location}/registries/{registry}` and
`projects/{project}/locations/{location}`, and every rendered path is the
slash-joined concatenation of the literal segments and the supplied
identifiers in that order. -/
theorem c8_fixed_template_strings :
    devicePathTemplate =
      [Seg.lit "projects", Seg.var "project", Seg.lit "locations",
        Seg.var "location", Seg.lit "registries", Seg.var "registry",
        Seg.lit "devices", Seg.var "device"] ∧
    deviceRegistryPathTemplate =
      [Seg.lit "projects", Seg.var "project", Seg.lit "locations",
        Seg.var "location", Seg.lit "registries", Seg.var "registry"] ∧
    locationPathTemplate =
      [Seg.lit "projects", Seg.var "project", Seg.lit "locations",
        Seg.var "location"] ∧
    (∀ p l r d : String,
      devicePath p l r d =
        "projects" ++ "/" ++ (p ++ "/" ++ ("locations" ++ "/" ++ (l ++ "/" ++
          ("registries" ++ "/" ++ (r ++ "/" ++ ("devices" ++ "/" ++ d))))))) ∧
    (∀ p l r : String,
      deviceRegistryPath p l r =
        "projects" ++ "/" ++ (p ++ "/" ++ ("locations" ++ "/" ++ (l ++ "/" ++
          ("registries" ++ "/" ++ r))))) ∧
    (∀ p l : String,
      locationPath p l =
        "projects" ++ "/" ++ (p ++ "/" ++ ("locations" ++ "/" ++ l))) :=
  ⟨by decide, by decide, by decide,
    fun _ _ _ _ => rfl, fun _ _ _ => rfl, fun _ _ => rfl⟩

/-- C1: rendering a resource path from identifier strings containing no
path separator and parsing it with the corresponding match functions
returns exactly the original components, for the device, registry and
location templates alike. -/
theorem c1_path_roundtrip (p l r d : String)
    (hp : '/' ∉ p.data) (hl : '/' ∉ l.data)
    (hr : '/' ∉ r.data) (hd : '/' ∉ d.data) :
    matchProjectFromDeviceName (devicePath p l r d) = some p ∧
    matchLocationFromDeviceName (devicePath p l r d) = some l ∧
    matchRegistryFromDeviceName (devicePath p l r d) = some r ∧
    matchDeviceFromDeviceName (devicePath p l r d) = some d ∧
    matchProjectFromDeviceRegistryName (deviceRegistryPath p l r) = some p ∧
    matchLocationFromDeviceRegistryName (deviceRegistryPath p l r) = some l ∧
    matchRegistryFromDeviceRegistryName (deviceRegistryPath p l r) = some r ∧
    matchProjectFromLocationName (locationPath p l) = some p ∧
    matchLocationFromLocationName (locationPath p l) = some l := by
  have hdev := splitSlash_devicePath p l r d hp hl hr hd
  have hreg := splitSlash_deviceRegistryPath p l r hp hl hr
  have hloc := splitSlash_locationPath p l hp hl
  refine ⟨?_, ?_, ?_, ?_, ?_, ?_, ?_, ?_, ?_⟩ <;>
    simp only [matchProjectFromDeviceName, matchLocationFromDeviceName,
      matchRegistryFromDeviceName, matchDeviceFromDeviceName,
      matchProjectFromDeviceRegistryName, matchLocationFromDeviceRegistryName,
      matchRegistryFromDeviceRegistryName, matchProjectFromLocationName,
      matchLocationFromLocationName, matchPath, hdev, hreg, hloc] <;>
    rfl

/-- Witness for C1 at a concrete identifier tuple. -/
theorem c1_path_roundtrip_witness :
    matchProjectFromDeviceName (devicePath "p0" "us-central1" "r0" "d0") =
      some "p0" ∧
    matchDeviceFromDeviceName (devicePath "p0" "us-central1" "r0" "d0") =
      some "d0" ∧
    matchRegistryFromDeviceRegistryName
      (deviceRegistryPath "p0" "us-central1" "r0") = some "r0" ∧
    matchLocationFromLocationName (locationPath "p0" "us-central1") =
      some "us-central1" :=
  have h := c1_path_roundtrip "p0" "us-central1" "r0" "d0"
    (by decide) (by decide) (by decide) (by decide)
  ⟨h.1, h.2.2.2.1, h.2.2.2.2.2.2.1, h.2.2.2.2.2.2.2.2⟩

/-- C6: a string that does not conform to the fixed template being parsed
(a missing segment, an extra segment, or a wrong literal segment) makes
every match operation for that template signal an error (modelled as
`none`) instead of returning components. -/
theorem c6_match_fails_on_nonconforming (s : String) :
    (conformsTo devicePathTemplate s = false →
      matchProjectFromDeviceName s = none ∧
      matchLocationFromDeviceName s = none ∧
      matchRegistryFromDeviceName s = none ∧
      matchDeviceFromDeviceName s = none) ∧
    (conformsTo deviceRegistryPathTemplate s = false →
      matchProjectFromDeviceRegistryName s = none ∧
      matchLocationFromDeviceRegistryName s = none ∧
      matchRegistryFromDeviceRegistryName s = none) ∧
    (conformsTo locationPathTemplate s = false →
      matchProjectFromLocationName s = none ∧
      matchLocationFromLocationName s = none) := by
  refine ⟨fun h => ?_, fun h => ?_, fun h => ?_⟩ <;>
  · have hm := matchSegs_none_of_not_ok _ _ h
    simp [matchProjectFromDeviceName, matchLocationFromDeviceName,
      matchRegistryFromDeviceName, matchDeviceFromDeviceName,
      matchProjectFromDeviceRegistryName, matchLocationFromDeviceRegistryName,
      matchRegistryFromDeviceRegistryName, matchProjectFromLocationName,
      matchLocationFromLocationName, matchPath, hm]

/-- Witness for C6: a missing segment, an extra segment, and a wrong
literal segment each fail to parse. -/
theorem c6_match_fails_witness :
    matchProjectFromDeviceName "projects/p0/locations/l0/registries/r0" =
      none ∧
    matchDeviceFromDeviceName
      "projects/p0/locations/l0/registries/r0/devices/d0/extra" = none ∧
    matchRegistryFromDeviceRegistryName
      "projects/p0/locations/l0/registrars/r0" = none ∧
    matchLocationFromLocationName "projects/p0" = none :=
  ⟨((c6_match_fails_on_nonconforming
      "projects/p0/locations/l0/registries/r0").1 (by decide)).1,
   ((c6_match_fails_on_nonconforming
      "projects/p0/locations/l0/registries/r0/devices/d0/extra").1
      (by decide)).2.2.2,
   ((c6_match_fails_on_nonconforming
      "projects/p0/locations/l0/registrars/r0").2.1 (by decide)).2.2,
   ((c6_match_fails_on_nonconforming "projects/p0").2.2 (by decide)).2⟩

/-! ## Service-call plumbing

Each service method of `DeviceManagerClient` shares the same boilerplate:
default the `request` and `options` arguments, create
`options.otherArgs.headers` when absent, overwrite the
`x-goog-request-params` entry with a routing header built by
`gax.routingHeader.fromParams` from the method's resource-identifying
field, and forward the unchanged `request` together with the mutated
`options` to the inner API call.  Requests and options are modelled as
structures with `Option` fields; a synchronously thrown `TypeError`
(reading a property of `undefined`) is `Except.error JsError.typeError`;
the in-place mutation of `options` is modelled by returning the updated
options value, and the arguments handed to the transport are returned as
the success value. -/

/-- A nested message carrying a `name` field (`request.device`,
`request.deviceRegistry`). -/
structure InnerMsg where
  name : Option String := none
deriving DecidableEq, Repr

/-- The request object, with the fields the client reads or forwards. -/
structure Request where
  parent : Option String := none
  name : Option String := none
  resource : Option String := none
  device : Option InnerMsg := none
  deviceRegistry : Option InnerMsg := none
  gatewayId : Option String := none
  deviceId : Option String := none
  pageToken : Option String := none
  pageSize : Option Nat := none
  binaryData : Option String := none
deriving DecidableEq, Repr

/-- The `otherArgs` member of a gax `CallOptions` object. -/
structure OtherArgs where
  headers : Option (List (String × String)) := none
deriving DecidableEq, Repr

/-- The per-call options object. -/
structure CallOptions where
  otherArgs : Option OtherArgs := none
deriving DecidableEq, Repr

/-- A synchronous JavaScript exception. -/
inductive JsError where
  | typeError
deriving DecidableEq, Repr

/-- JavaScript string interpolation of a possibly-`undefined` value. -/
def jsStr : Option String → String
  | some s => s
  | none => "undefined"

/-- Modelled from the spec: `gax.routingHeader.fromParams` (google-gax is
not part of this repository) renders the parameter object as a
`key1=value1&key2=value2`-style string (§6). -/
def fromParams (ps : List (String × Option String)) : String :=
  String.intercalate "&" (ps.map (fun kv => kv.1 ++ "=" ++ jsStr kv.2))

/-- Set a header, overwriting any existing entry for the key. -/
def setHeader (hs : List (String × String)) (k v : String) :
    List (String × String) :=
  (k, v) :: hs.filter (fun kv => kv.1 ≠ k)

/-- The headers visible on an options object
(`options.otherArgs.headers`, empty when a level is absent). -/
def headersOf (o : CallOptions) : List (String × String) :=
  match o.otherArgs with
  | none => []
  | some oa => oa.headers.getD []

/-- Look up a header value on an options object. -/
def headerValue (o : CallOptions) (k : String) : Option String :=
  (headersOf o).lookup k

/-- The three boilerplate lines
`options.otherArgs = options.otherArgs || {}`,
`options.otherArgs.headers = options.otherArgs.headers || {}`,
`options.otherArgs.headers['x-goog-request-params'] = v`. -/
def withParamsHeader (o : CallOptions) (v : String) : CallOptions :=
  let hs := setHeader (headersOf o) "x-goog-request-params" v
  { o with otherArgs := some (OtherArgs.mk (some hs)) }

/-- `createDeviceRegistry(request, options)`. -/
def createDeviceRegistry (request? : Option Request) (options : CallOptions) :
    Except JsError (Option Request × CallOptions) :=
  let request := request?.getD {}
  Except.ok (some request,
    withParamsHeader options (fromParams [("parent", request.parent)]))

/-- `getDeviceRegistry(request, options)`. -/
def getDeviceRegistry (request? : Option Request) (options : CallOptions) :
    Except JsError (Option Request × CallOptions) :=
  let request := request?.getD {}
  Except.ok (some request,
    withParamsHeader options (fromParams [("name", request.name)]))

/-- `updateDeviceRegistry(request, options)`: reads
`request.deviceRegistry.name` unguarded, so an absent `deviceRegistry`
throws a `TypeError` before any transport invocation. -/
def updateDeviceRegistry (request? : Option Request) (options : CallOptions) :
    Except JsError (Option Request × CallOptions) :=
  let request := request?.getD {}
  match request.deviceRegistry with
  | none => Except.error JsError.typeError
  | some reg =>
    Except.ok (some request,
      withParamsHeader options (fromParams [("device_registry.name", reg.name)]))

/-- `deleteDeviceRegistry(request, options)`. -/
def deleteDeviceRegistry (request? : Option Request) (options : CallOptions) :
    Except JsError (Option Request × CallOptions) :=
  let request := request?.getD {}
  Except.ok (some request,
    withParamsHeader options (fromParams [("name", request.name)]))

/-- `listDeviceRegistries(request, options)`. -/
def listDeviceRegistries (request? : Option Request) (options : CallOptions) :
    Except JsError (Option Request × CallOptions) :=
  let request := request?.getD {}
  Except.ok (some request,
    withParamsHeader options (fromParams [("parent", request.parent)]))

/-- `createDevice(request, options)`. -/
def createDevice (request? : Option Request) (options : CallOptions) :
    Except JsError (Option Request × CallOptions) :=
  let request := request?.getD {}
  Except.ok (some request,
    withParamsHeader options (fromParams [("parent", request.parent)]))

/-- `getDevice(request, options)`. -/
def getDevice (request? : Option Request) (options : CallOptions) :
    Except JsError (Option Request × CallOptions) :=
  let request := request?.getD {}
  Except.ok (some request,
    withParamsHeader options (fromParams [("name", request.name)]))

/-- `updateDevice(request, options)`: reads `request.device.name`
unguarded, so an absent `device` throws a `TypeError` before any
transport invocation. -/
def updateDevice (request? : Option Request) (options : CallOptions) :
    Except JsError (Option Request × CallOptions) :=
  let request := request?.getD {}
  match request.device with
  | none => Except.error JsError.typeError
  | some dev =>
    Except.ok (some request,
      withParamsHeader options (fromParams [("device.name", dev.name)]))

/-- `deleteDevice(request, options)`. -/
def deleteDevice (request? : Option Request) (options : CallOptions) :
    Except JsError (Option Request × CallOptions) :=
  let request := request?.getD {}
  Except.ok (some request,
    withParamsHeader options (fromParams [("name", request.name)]))

/-- `listDevices(request, options)`. -/
def listDevices (request? : Option Request) (options : CallOptions) :
    Except JsError (Option Request × CallOptions) :=
  let request := request?.getD {}
  Except.ok (some request,
    withParamsHeader options (fromParams [("parent", request.parent)]))

/-- `modifyCloudToDeviceConfig(request, options)`. -/
def modifyCloudToDeviceConfig (request? : Option Request)
    (options : CallOptions) :
    Except JsError (Option Request × CallOptions) :=
  let request := request?.getD {}
  Except.ok (some request,
    withParamsHeader options (fromParams [("name", request.name)]))

/-- `listDeviceConfigVersions(request, options)`. -/
def listDeviceConfigVersions (request? : Option Request)
    (options : CallOptions) :
    Except JsError (Option Request × CallOptions) :=
  let request := request?.getD {}
  Except.ok (some request,
    withParamsHeader options (fromParams [("name", request.name)]))

/-- `listDeviceStates(request, options)`. -/
def listDeviceStates (request? : Option Request) (options : CallOptions) :
    Except JsError (Option Request × CallOptions) :=
  let request := request?.getD {}
  Except.ok (some request,
    withParamsHeader options (fromParams [("name", request.name)]))

/-- `setIamPolicy(request, options)`. -/
def setIamPolicy (request? : Option Request) (options : CallOptions) :
    Except JsError (Option Request × CallOptions) :=
  let request := request?.getD {}
  Except.ok (some request,
    withParamsHeader options (fromParams [("resource", request.resource)]))

/-- `getIamPolicy(request, options)`. -/
def getIamPolicy (request? : Option Request) (options : CallOptions) :
    Except JsError (Option Request × CallOptions) :=
  let request := request?.getD {}
  Except.ok (some request,
    withParamsHeader options (fromParams [("resource", request.resource)]))

/-- `testIamPermissions(request, options)`. -/
def testIamPermissions (request? : Option Request) (options : CallOptions) :
    Except JsError (Option Request × CallOptions) :=
  let request := request?.getD {}
  Except.ok (some request,
    withParamsHeader options (fromParams [("resource", request.resource)]))

/-- `sendCommandToDevice(request, options)`. -/
def sendCommandToDevice (request? : Option Request) (options : CallOptions) :
    Except JsError (Option Request × CallOptions) :=
  let request := request?.getD {}
  Except.ok (some request,
    withParamsHeader options (fromParams [("name", request.name)]))

/-- `bindDeviceToGateway(request, options)`. -/
def bindDeviceToGateway (request? : Option Request) (options : CallOptions) :
    Except JsError (Option Request × CallOptions) :=
  let request := request?.getD {}
  Except.ok (some request,
    withParamsHeader options (fromParams [("parent", request.parent)]))

/-- `unbindDeviceFromGateway(request, options)`. -/
def unbindDeviceFromGateway (request? : Option Request)
    (options : CallOptions) :
    Except JsError (Option Request × CallOptions) :=
  let request := request?.getD {}
  Except.ok (some request,
    withParamsHeader options (fromParams [("parent", request.parent)]))

/-- `listDeviceRegistriesStream(request, options)`: does not default
`request`, attaches the routing header, and hands request and options to
`createStream`. -/
def listDeviceRegistriesStream (request? : Option Request)
    (options : CallOptions) :
    Except JsError (Option Request × CallOptions) :=
  match request? with
  | none => Except.error JsError.typeError
  | some request =>
    Except.ok (some request,
      withParamsHeader options (fromParams [("parent", request.parent)]))

/-- `listDevicesStream(request, options)`: only defaults `options` and
hands request and options to `createStream`; unlike every other method it
attaches no routing header. -/
def listDevicesStream (request? : Option Request) (options : CallOptions) :
    Except JsError (Option Request × CallOptions) :=
  Except.ok (request?, options)

/-- The public request-issuing methods of the client. -/
inductive Method where
  | createDeviceRegistry
  | getDeviceRegistry
  | updateDeviceRegistry
  | deleteDeviceRegistry
  | listDeviceRegistries
  | createDevice
  | getDevice
  | updateDevice
  | deleteDevice
  | listDevices
  | modifyCloudToDeviceConfig
  | listDeviceConfigVersions
  | listDeviceStates
  | setIamPolicy
  | getIamPolicy
  | testIamPermissions
  | sendCommandToDevice
  | bindDeviceToGateway
  | unbindDeviceFromGateway
  | listDeviceRegistriesStream
  | listDevicesStream
deriving DecidableEq, Repr

/-- The 19 service methods, in the order of the source's
`deviceManagerStubMethods` list. -/
def deviceManagerStubMethods : List Method :=
  [Method.createDeviceRegistry, Method.getDeviceRegistry,
   Method.updateDeviceRegistry, Method.deleteDeviceRegistry,
   Method.listDeviceRegistries, Method.createDevice, Method.getDevice,
   Method.updateDevice, Method.deleteDevice, Method.listDevices,
   Method.modifyCloudToDeviceConfig, Method.listDeviceConfigVersions,
   Method.listDeviceStates, Method.setIamPolicy, Method.getIamPolicy,
   Method.testIamPermissions, Method.sendCommandToDevice,
   Method.bindDeviceToGateway, Method.unbindDeviceFromGateway]

/-- Dispatch a method name to its implementation. -/
def applyMethod : Method → Option Request → CallOptions →
    Except JsError (Option Request × CallOptions)
  | Method.createDeviceRegistry => createDeviceRegistry
  | Method.getDeviceRegistry => getDeviceRegistry
  | Method.updateDeviceRegistry => updateDeviceRegistry
  | Method.deleteDeviceRegistry => deleteDeviceRegistry
  | Method.listDeviceRegistries => listDeviceRegistries
  | Method.createDevice => createDevice
  | Method.getDevice => getDevice
  | Method.updateDevice => updateDevice
  | Method.deleteDevice => deleteDevice
  | Method.listDevices => listDevices
  | Method.modifyCloudToDeviceConfig => modifyCloudToDeviceConfig
  | Method.listDeviceConfigVersions => listDeviceConfigVersions
  | Method.listDeviceStates => listDeviceStates
  | Method.setIamPolicy => setIamPolicy
  | Method.getIamPolicy => getIamPolicy
  | Method.testIamPermissions => testIamPermissions
  | Method.sendCommandToDevice => sendCommandToDevice
  | Method.bindDeviceToGateway => bindDeviceToGateway
  | Method.unbindDeviceFromGateway => unbindDeviceFromGateway
  | Method.listDeviceRegistriesStream => listDeviceRegistriesStream
  | Method.listDevicesStream => listDevicesStream

/-- The spec's method table (§6): the resource-identifying field used for
routing, per logical operation, written as the routing parameter key and
the value read from the request. -/
def specRoutingParams (m : Method) (r : Request) :
    List (String × Option String) :=
  match m with
  | Method.createDeviceRegistry => [("parent", r.parent)]
  | Method.getDeviceRegistry => [("name", r.name)]
  | Method.updateDeviceRegistry =>
    [("device_registry.name", r.deviceRegistry.bind InnerMsg.name)]
  | Method.deleteDeviceRegistry => [("name", r.name)]
  | Method.listDeviceRegistries => [("parent", r.parent)]
  | Method.createDevice => [("parent", r.parent)]
  | Method.getDevice => [("name", r.name)]
  | Method.updateDevice => [("device.name", r.device.bind InnerMsg.name)]
  | Method.deleteDevice => [("name", r.name)]
  | Method.listDevices => [("parent", r.parent)]
  | Method.modifyCloudToDeviceConfig => [("name", r.name)]
  | Method.listDeviceConfigVersions => [("name", r.name)]
  | Method.listDeviceStates => [("name", r.name)]
  | Method.setIamPolicy => [("resource", r.resource)]
  | Method.getIamPolicy => [("resource", r.resource)]
  | Method.testIamPermissions => [("resource", r.resource)]
  | Method.sendCommandToDevice => [("name", r.name)]
  | Method.bindDeviceToGateway => [("parent", r.parent)]
  | Method.unbindDeviceFromGateway => [("parent", r.parent)]
  | Method.listDeviceRegistriesStream => [("parent", r.parent)]
  | Method.listDevicesStream => [("parent", r.parent)]

/-! ### Helper lemmas about the shared boilerplate -/

theorem headerValue_withParamsHeader (o : CallOptions) (v : String) :
    headerValue (withParamsHeader o v) "x-goog-request-params" = some v := by
  simp [headerValue, headersOf, withParamsHeader, setHeader, List.lookup]

theorem otherArgs_withParamsHeader (o : CallOptions) (v : String) :
    (withParamsHeader o v).otherArgs ≠ none := by
  simp [withParamsHeader]

/-- Every method forwards the caller's request object itself to the
transport layer. -/
theorem applyMethod_forwards (m : Method) (req : Request)
    (opts : CallOptions) (out : Option Request × CallOptions)
    (h : applyMethod m (some req) opts = Except.ok out) : out.1 = some req := by
  cases m
  case updateDevice =>
    rcases hdev : req.device with _ | dev <;>
      simp only [applyMethod, updateDevice, Option.getD_some, hdev] at h
    · exact Except.noConfusion h
    · injection h with h2; subst h2; rfl
  case updateDeviceRegistry =>
    rcases hreg : req.deviceRegistry with _ | reg <;>
      simp only [applyMethod, updateDeviceRegistry, Option.getD_some, hreg] at h
    · exact Except.noConfusion h
    · injection h with h2; subst h2; rfl
  all_goals (injection h with h2; subst h2; rfl)

/-- Every method other than `listDevicesStream`, when it reaches the
transport, has stored the routing header prescribed by the spec's method
table into the options object, creating `otherArgs`/`headers` on the way. -/
theorem applyMethod_header (m : Method) (req : Request)
    (opts : CallOptions) (out : Option Request × CallOptions)
    (hm : m ≠ Method.listDevicesStream)
    (h : applyMethod m (some req) opts = Except.ok out) :
    headerValue out.2 "x-goog-request-params" =
      some (fromParams (specRoutingParams m req)) ∧
    (out.2).otherArgs ≠ none := by
  cases m
  case listDevicesStream => exact absurd rfl hm
  case updateDevice =>
    rcases hdev : req.device with _ | dev <;>
      simp only [applyMethod, updateDevice, Option.getD_some, hdev] at h
    · exact Except.noConfusion h
    · injection h with h2; subst h2
      refine ⟨?_, otherArgs_withParamsHeader _ _⟩
      simp [specRoutingParams, hdev, headerValue_withParamsHeader]
  case updateDeviceRegistry =>
    rcases hreg : req.deviceRegistry with _ | reg <;>
      simp only [applyMethod, updateDeviceRegistry, Option.getD_some, hreg] at h
    · exact Except.noConfusion h
    · injection h with h2; subst h2
      refine ⟨?_, otherArgs_withParamsHeader _ _⟩
      simp [specRoutingParams, hreg, headerValue_withParamsHeader]
  all_goals
    (injection h with h2; subst h2
     exact ⟨headerValue_withParamsHeader _ _, otherArgs_withParamsHeader _ _⟩)

/-- A stub method is not the streaming variant `listDevicesStream`. -/
theorem mem_stub_ne_stream {m : Method}
    (hm : m ∈ deviceManagerStubMethods) : m ≠ Method.listDevicesStream := by
  intro he
  subst he
  revert hm
  decide

/-- The device name of the concrete `getDevice` echo scenario. -/
def echoDeviceName : String :=
  "projects/p0/locations/us-central1/registries/r0/devices/d0"

/-- The request of the concrete `getDevice` echo scenario. -/
def getDeviceEchoRequest : Request := { name := some echoDeviceName }

/-- First request of the options-reuse scenario. -/
def reuseFirstRequest : Request :=
  { parent := some "projects/p1/locations/l1" }

/-- Second request of the options-reuse scenario. -/
def reuseSecondRequest : Request :=
  { name := some "projects/p1/locations/l1/registries/r1/devices/d1" }

/-- The request of the concrete `bindDeviceToGateway` scenario. -/
def bindGatewayRequest : Request :=
  { parent := some "projects/p0/locations/us-central1/registries/r0",
    gatewayId := some "gw1", deviceId := some "dev1" }

/-! ## Theorems: routing headers, pass-through, synchronous failures -/

/-- C2 counterexample: `listDevicesStream`, one of the streaming list
variants, attaches no `x-goog-request-params` routing header at all: with
fresh options and a request whose `parent` is set, the options handed to
the transport still carry no such header.  This refutes the claim that
every logical operation including the streaming list variants attaches
the routing header. -/
theorem c2_counterexample_listDevicesStream :
    applyMethod Method.listDevicesStream (some bindGatewayRequest) {} =
      Except.ok (some bindGatewayRequest, {}) ∧
    headerValue ({} : CallOptions) "x-goog-request-params" = none :=
  ⟨rfl, rfl⟩

/-- C2 (amended): every request-issuing method of the client except
`listDevicesStream` attaches to the outgoing call an
`x-goog-request-params` routing header derived from the
resource-identifying field named in the spec's method table; in
particular `bindDeviceToGateway` with parent
`projects/p0/locations/us-central1/registries/r0` attaches a header
containing exactly `parent=projects/p0/locations/us-central1/registries/r0`
and forwards all three request fields unmodified. -/
theorem c2_routing_header :
    (∀ (m : Method) (req : Request) (opts : CallOptions)
        (out : Option Request × CallOptions),
      m ≠ Method.listDevicesStream →
      applyMethod m (some req) opts = Except.ok out →
      headerValue out.2 "x-goog-request-params" =
        some (fromParams (specRoutingParams m req))) ∧
    bindDeviceToGateway (some bindGatewayRequest) {} =
      Except.ok (some bindGatewayRequest,
        withParamsHeader {}
          "parent=projects/p0/locations/us-central1/registries/r0") ∧
    headerValue
      (withParamsHeader {}
        "parent=projects/p0/locations/us-central1/registries/r0")
      "x-goog-request-params" =
        some "parent=projects/p0/locations/us-central1/registries/r0" :=
  ⟨fun m req opts out hm h => (applyMethod_header m req opts out hm h).1,
   rfl, rfl⟩

/-- Witness for C2 (amended) at a concrete call. -/
theorem c2_routing_header_witness :
    headerValue
      (withParamsHeader {} (fromParams [("parent", some "projects/p0/locations/us-central1/registries/r0")]))
      "x-goog-request-params" =
      some (fromParams (specRoutingParams Method.bindDeviceToGateway bindGatewayRequest)) :=
  c2_routing_header.1 Method.bindDeviceToGateway bindGatewayRequest {}
    (some bindGatewayRequest,
      withParamsHeader {} (fromParams [("parent", some "projects/p0/locations/us-central1/registries/r0")]))
    (by decide) rfl

/-- C7: every service call forwards the request payload to the transport
with no field renamed, dropped, or transformed (the very request object is
passed on); concretely, `getDevice` with name
`projects/p0/locations/us-central1/registries/r0/devices/d0` invoked
against a stub that echoes the forwarded request yields a response whose
`name` equals the input name unchanged. -/
theorem c7_request_passthrough :
    (∀ (m : Method) (req : Request) (opts : CallOptions)
        (out : Option Request × CallOptions),
      applyMethod m (some req) opts = Except.ok out → out.1 = some req) ∧
    (getDevice (some getDeviceEchoRequest) {}).map
        (fun out => (out.1.getD {}).name) =
      Except.ok (some echoDeviceName) :=
  ⟨applyMethod_forwards, rfl⟩

/-- Witness for C7 at a concrete call. -/
theorem c7_request_passthrough_witness :
    (some bindGatewayRequest,
      withParamsHeader {}
        "parent=projects/p0/locations/us-central1/registries/r0").1 =
      some bindGatewayRequest :=
  c7_request_passthrough.1 Method.bindDeviceToGateway bindGatewayRequest {}
    (some bindGatewayRequest,
      withParamsHeader {}
        "parent=projects/p0/locations/us-central1/registries/r0")
    rfl

/-- C9: `updateDevice` fails synchronously with a `TypeError` (before any
transport invocation) whenever the request lacks a `device` field, because
the routing header reads `request.device.name` unguarded;
`updateDeviceRegistry` behaves the same for a missing `deviceRegistry`;
every other service method accepts an absent or empty request without
throwing synchronously. -/
theorem c9_update_throws_on_missing_message :
    (∀ (req : Request) (opts : CallOptions), req.device = none →
      applyMethod Method.updateDevice (some req) opts =
        Except.error JsError.typeError) ∧
    (∀ opts : CallOptions,
      applyMethod Method.updateDevice none opts =
        Except.error JsError.typeError) ∧
    (∀ (req : Request) (opts : CallOptions), req.deviceRegistry = none →
      applyMethod Method.updateDeviceRegistry (some req) opts =
        Except.error JsError.typeError) ∧
    (∀ opts : CallOptions,
      applyMethod Method.updateDeviceRegistry none opts =
        Except.error JsError.typeError) ∧
    (∀ m : Method, m ∈ deviceManagerStubMethods →
      m ≠ Method.updateDevice → m ≠ Method.updateDeviceRegistry →
      ∀ opts : CallOptions,
        (applyMethod m none opts).isOk = true ∧
        (applyMethod m (some {}) opts).isOk = true) := by
  refine ⟨?_, ?_, ?_, ?_, ?_⟩
  · intro req opts hdev
    simp [applyMethod, updateDevice, hdev]
  · intro opts
    rfl
  · intro req opts hreg
    simp [applyMethod, updateDeviceRegistry, hreg]
  · intro opts
    rfl
  · intro m hm h1 h2 opts
    cases m <;>
      first
      | exact ⟨rfl, rfl⟩
      | exact absurd rfl h1
      | exact absurd rfl h2
      | exact absurd hm (by decide)

/-- Witness for C9 at concrete calls. -/
theorem c9_update_throws_witness :
    applyMethod Method.updateDevice none {} =
      Except.error JsError.typeError ∧
    (applyMethod Method.getDevice none {}).isOk = true :=
  ⟨c9_update_throws_on_missing_message.2.1 {},
   (c9_update_throws_on_missing_message.2.2.2.2 Method.getDevice
      (by decide) (by decide) (by decide) {}).1⟩

/-- C10: every service-call method updates the caller-supplied options
object (modelled by the returned options value): it creates
`options.otherArgs` and its `headers` when absent and unconditionally
overwrites the `x-goog-request-params` entry with the current call's
routing header, while leaving the request object unmodified; hence an
options object reused across two calls carries the second call's routing
header after the second invocation. -/
theorem c10_options_mutation :
    (∀ m : Method, m ∈ deviceManagerStubMethods →
      ∀ (req : Request) (opts : CallOptions)
        (out : Option Request × CallOptions),
      applyMethod m (some req) opts = Except.ok out →
      out.1 = some req ∧
      (out.2).otherArgs ≠ none ∧
      headerValue out.2 "x-goog-request-params" =
        some (fromParams (specRoutingParams m req))) ∧
    (∀ (out1 out2 : Option Request × CallOptions),
      createDeviceRegistry (some reuseFirstRequest) {} = Except.ok out1 →
      sendCommandToDevice (some reuseSecondRequest) out1.2 =
          Except.ok out2 →
      headerValue out1.2 "x-goog-request-params" =
        some "parent=projects/p1/locations/l1" ∧
      headerValue out2.2 "x-goog-request-params" =
        some "name=projects/p1/locations/l1/registries/r1/devices/d1") := by
  constructor
  · intro m hm req opts out h
    have hne := mem_stub_ne_stream hm
    have hh := applyMethod_header m req opts out hne h
    exact ⟨applyMethod_forwards m req opts out h, hh.2, hh.1⟩
  · intro out1 out2 h1 h2
    injection h1 with h1e
    subst h1e
    injection h2 with h2e
    subst h2e
    exact ⟨rfl, rfl⟩

/-- Witness for C10 at concrete calls. -/
theorem c10_options_mutation_witness :
    ((some bindGatewayRequest,
        withParamsHeader {}
          "parent=projects/p0/locations/us-central1/registries/r0") :
      Option Request × CallOptions).1 = some bindGatewayRequest ∧
    headerValue
      (withParamsHeader
        (withParamsHeader {} "parent=projects/p1/locations/l1")
        "name=projects/p1/locations/l1/registries/r1/devices/d1")
      "x-goog-request-params" =
      some "name=projects/p1/locations/l1/registries/r1/devices/d1" :=
  ⟨(c10_options_mutation.1 Method.bindDeviceToGateway (by decide)
      bindGatewayRequest {}
      (some bindGatewayRequest,
        withParamsHeader {}
          "parent=projects/p0/locations/us-central1/registries/r0")
      rfl).1,
   (c10_options_mutation.2
      (some reuseFirstRequest,
        withParamsHeader {} "parent=projects/p1/locations/l1")
      (some reuseSecondRequest,
        withParamsHeader
          (withParamsHeader {} "parent=projects/p1/locations/l1")
          "name=projects/p1/locations/l1/registries/r1/devices/d1")
      rfl rfl).2⟩

/-! ## Pagination

The `PageDescriptor` objects registered for `listDeviceRegistries`
(`'pageToken'`, `'nextPageToken'`, `'deviceRegistries'`) and `listDevices`
(`'pageToken'`, `'nextPageToken'`, `'devices'`) name the request page-token
field, the response continuation-token field and the response results
field.  The iteration machinery itself lives in `google-gax`
(`createApiCall` / `createStream`), which is not part of this repository;
it is modelled from the spec (§4.3): invoke the underlying call; if the
response carries a non-empty next-page token, produce a follow-up request
identical to the original except for the token, and continue.  A server
page is a response carrying a list of items and a `nextPageToken` string,
the empty string standing for the absent proto3 string field. -/

/-- One server response page. -/
structure Page (α : Type) where
  items : List α
  nextPageToken : String := ""
deriving DecidableEq, Repr

/-- Modelled from the spec: in manual page mode the returned "next
request" is `null` when the response carries no (empty) continuation
token, and otherwise is the input request with its page-token field
replaced by the response token. -/
def nextPageRequest (req : Request) (tok : String) : Option Request :=
  if tok = "" then none else some { req with pageToken := some tok }

/-- Modelled from the spec: a manual-mode list call returns the page's
items together with the "next request" value. -/
def manualPage {α : Type} (call : Request → Page α) (req : Request) :
    List α × Option Request :=
  ((call req).items, nextPageRequest req (call req).nextPageToken)

/-- Modelled from the spec: the auto-draining iterator, recorded as the
trace of (request, response page) pairs.  The server is modelled as the
finite sequence of pages it will return to successive calls; iteration
stops when a page carries no (empty) token or the server has no further
pages. -/
def drainPages {α : Type} (req : Request) :
    List (Page α) → List (Request × Page α)
  | [] => []
  | pg :: rest =>
    (req, pg) ::
      (if pg.nextPageToken = "" then []
       else drainPages { req with pageToken := some pg.nextPageToken } rest)

/-- The items yielded by the auto-draining iterator, in order. -/
def autoItems {α : Type} (req : Request) (pages : List (Page α)) : List α :=
  ((drainPages req pages).map (fun e => e.2.items)).flatten

/-- The page sequences of the C4 scenario: every page except the last
carries a non-empty continuation token, and the last carries none. -/
inductive ChainOk {α : Type} : List (Page α) → Prop
  | last (pg : Page α) (h : pg.nextPageToken = "") : ChainOk [pg]
  | cons (pg : Page α) (h : pg.nextPageToken ≠ "") {rest : List (Page α)}
      (hr : ChainOk rest) : ChainOk (pg :: rest)

/-- C3: in manual page mode the "next request" is `none` exactly when the
response carries no (empty) `nextPageToken`, and otherwise equals the
input request with only its page-token field replaced by the response's
token. -/
theorem c3_manual_page_next_request {α : Type} (call : Request → Page α)
    (req : Request) :
    ((manualPage call req).2 = none ↔ (call req).nextPageToken = "") ∧
    ((call req).nextPageToken ≠ "" →
      (manualPage call req).2 =
        some { req with pageToken := some (call req).nextPageToken }) := by
  constructor
  · unfold manualPage nextPageRequest
    by_cases h : (call req).nextPageToken = "" <;> simp [h]
  · intro h
    unfold manualPage nextPageRequest
    simp [h]

/-- Witness for C3 at a concrete stub call. -/
theorem c3_manual_page_next_request_witness :
    (manualPage (fun _ => Page.mk [1, 2] "tok7") {}).2 =
      some { pageToken := some "tok7" : Request } :=
  (c3_manual_page_next_request (fun _ => Page.mk [1, 2] "tok7") {}).2
    (by decide)

/-- C4: over a page sequence in which every page but the last carries a
non-empty token, the auto-draining iterator yields exactly the
concatenation of the pages' item lists in server order, makes exactly one
request per page (terminating after the tokenless page), and every issued
request is identical to the original except for its page-token field. -/
theorem c4_auto_pagination {α : Type} (req : Request)
    (pages : List (Page α)) (hc : ChainOk pages) :
    autoItems req pages = (pages.map Page.items).flatten ∧
    (drainPages req pages).length = pages.length ∧
    (∀ e ∈ drainPages req pages,
      { e.1 with pageToken := none } = { req with pageToken := none }) := by
  induction hc generalizing req with
  | last pg h =>
    refine ⟨?_, ?_, ?_⟩
    · simp [autoItems, drainPages, h]
    · simp [drainPages, h]
    · intro e he
      simp [drainPages, h] at he
      subst he
      rfl
  | cons pg h hr ih =>
    rcases ih { req with pageToken := some pg.nextPageToken } with
      ⟨ih1, ih2, ih3⟩
    refine ⟨?_, ?_, ?_⟩
    · simp [autoItems, drainPages, h] at ih1 ⊢
      exact ih1
    · simp [drainPages, h, ih2]
    · intro e he
      simp only [drainPages, if_neg h, List.mem_cons] at he
      rcases he with he | he
      · subst he
        rfl
      · exact ih3 e he

/-- Witness for C4 at a concrete three-page sequence. -/
theorem c4_auto_pagination_witness :
    autoItems {} [Page.mk [1, 2] "a", Page.mk [3] "b", Page.mk [4, 5] ""] =
      [1, 2, 3, 4, 5] :=
  (c4_auto_pagination {} [Page.mk [1, 2] "a", Page.mk [3] "b",
      Page.mk [4, 5] ""]
    (ChainOk.cons _ (by decide)
      (ChainOk.cons _ (by decide) (ChainOk.last _ rfl)))).1

/-! ## Retry policy

The per-method retry configuration is resolved by
`gaxGrpc.constructSettings` from `device_manager_client_config.json`,
which is not under `src/`; the table and the retry loop are modelled from
the spec (§4.2, §7): retries apply only to the allowlisted idempotent
operations, with a small fixed set of transient retryable status codes
(transient unavailability), explicitly excluding deadline-exceeded, and a
retryable call is retried up to the configured attempt limit before
failing permanently. -/

/-- gRPC status codes. -/
inductive Code where
  | ok
  | cancelled
  | unknown
  | invalidArgument
  | deadlineExceeded
  | notFound
  | alreadyExists
  | permissionDenied
  | resourceExhausted
  | failedPrecondition
  | aborted
  | outOfRange
  | unimplemented
  | internal
  | unavailable
  | dataLoss
  | unauthenticated
deriving DecidableEq, Repr

/-- Modelled from the spec: the allowlist of idempotent operations (reads,
lists and deletes; mutating creates/updates/commands are not idempotent). -/
def isIdempotent : Method → Bool
  | Method.getDeviceRegistry => true
  | Method.deleteDeviceRegistry => true
  | Method.listDeviceRegistries => true
  | Method.getDevice => true
  | Method.deleteDevice => true
  | Method.listDevices => true
  | Method.listDeviceConfigVersions => true
  | Method.listDeviceStates => true
  | Method.getIamPolicy => true
  | Method.testIamPermissions => true
  | Method.listDeviceRegistriesStream => true
  | Method.listDevicesStream => true
  | _ => false

/-- Modelled from the spec: the retryable status codes resolved for each
method from the static default configuration table — transient
unavailability for idempotent calls, nothing for the rest, and never
deadline-exceeded. -/
def retryCodes (m : Method) : List Code :=
  if isIdempotent m then [Code.unavailable] else []

/-- Modelled from the spec: the retrying call dispatcher.  `outcomes` is
the sequence of statuses successive transport attempts would return;
`limit` is the configured attempt limit.  The result counts the attempts
actually made and gives the final outcome. -/
def runWithRetry (retryable : List Code) :
    List Code → Nat → Nat × Except Code Unit
  | [], _ => (0, Except.error Code.internal)
  | c :: rest, limit =>
    if c = Code.ok then (1, Except.ok ())
    else if c ∈ retryable ∧ 1 < limit then
      let r := runWithRetry retryable rest (limit - 1)
      (r.1 + 1, r.2)
    else (1, Except.error c)

/-- One retrying step: a non-ok retryable status with attempts remaining
recurses on the rest of the outcomes with one fewer attempt. -/
theorem runWithRetry_cons_retry (R : List Code) (c : Code)
    (rest : List Code) (n : Nat) (hc : ¬c = Code.ok) (hm : c ∈ R)
    (hn : 1 < n) :
    runWithRetry R (c :: rest) n =
      ((runWithRetry R rest (n - 1)).1 + 1,
        (runWithRetry R rest (n - 1)).2) := by
  simp [runWithRetry, hc, hm, hn]

/-- C5: no operation's resolved retryable-code set contains
deadline-exceeded; an operation configured as non-retryable fails on the
first transient failure without a second attempt; and a retryable
operation facing a retryable status on every attempt is retried up to the
configured attempt limit before failing permanently with that status. -/
theorem c5_retry_policy :
    (∀ m : Method, Code.deadlineExceeded ∉ retryCodes m) ∧
    (∀ (m : Method) (c : Code) (rest : List Code) (limit : Nat),
      retryCodes m = [] → c ≠ Code.ok →
      runWithRetry (retryCodes m) (c :: rest) limit =
        (1, Except.error c)) ∧
    (∀ (m : Method) (limit : Nat), Code.unavailable ∈ retryCodes m →
      0 < limit →
      runWithRetry (retryCodes m) (List.replicate limit Code.unavailable)
          limit =
        (limit, Except.error Code.unavailable)) := by
  refine ⟨?_, ?_, ?_⟩
  · intro m
    cases m <;> simp [retryCodes, isIdempotent]
  · intro m c rest limit hempty hc
    rw [hempty]
    simp [runWithRetry, hc]
  · intro m limit hmem hpos
    induction limit with
    | zero => exact absurd hpos (by decide)
    | succ n ih =>
      cases n with
      | zero => simp [runWithRetry, List.replicate]
      | succ k =>
        have hrec := ih (by omega)
        rw [List.replicate_succ,
          runWithRetry_cons_retry _ _ _ _ (by decide) hmem (by omega)]
        rw [Nat.add_sub_cancel, hrec]

/-- Witness for C5 at a concrete method and attempt limit. -/
theorem c5_retry_policy_witness :
    runWithRetry (retryCodes Method.createDevice)
        [Code.unavailable, Code.ok] 3 = (1, Except.error Code.unavailable) ∧
    runWithRetry (retryCodes Method.getDevice)
        (List.replicate 3 Code.unavailable) 3 =
      (3, Except.error Code.unavailable) :=
  ⟨c5_retry_policy.2.1 Method.createDevice Code.unavailable [Code.ok] 3
      rfl (by decide),
   c5_retry_policy.2.2 Method.getDevice 3 (by decide) (by decide)⟩

end IotClient

